import Mathlib

/-!
Shallow embedding of the ai-reservation-backend repository
(src/main.py, src/data_store.py, src/database.py, src/chatbase_bridge.py)
and verification of the specification's claims about it.
-/

namespace ResBackend

/-- A chat message as stored in `chat_memory.json` (src/chatbase_bridge.py). -/
structure Msg where
  role : String
  content : String
deriving DecidableEq, Repr

/-- Python slice `l[-n:]`: the last `n` elements (the whole list when shorter). -/
def lastN (n : Nat) (l : List α) : List α := l.drop (l.length - n)

/-- src/chatbase_bridge.py `save_memory`: writes `messages[-15:]` to the memory file.
We model the persisted contents. -/
def save_memory (messages : List Msg) : List Msg := lastN 15 messages

/-- The `"User" if msg["role"] == "user" else "Assistant"` label of src/chatbase_bridge.py. -/
def roleLabel (m : Msg) : String := if m.role = "user" then "User" else "Assistant"

/-- src/chatbase_bridge.py `build_context`: serializes the last 10 messages of memory
into a readable conversation string, with a fixed greeting when memory is empty. -/
def build_context (memory : List Msg) : String :=
  if memory = [] then "User just started chatting for the first time."
  else
    ((lastN 10 memory).foldl
      (fun acc m => acc ++ roleLabel m ++ ": " ++ m.content ++ "\n") "").trim

/-- Python `a or b` on an optional string `a` with string fallback `b`
(`None` and `""` are falsy). -/
def pyOr (a : Option String) (b : String) : String :=
  match a with
  | some s => if s = "" then b else s
  | none => b

/-- Python truthiness of `os.getenv(...)`: absent (`None`) and `""` are falsy. -/
def envTruthy : Option String → Bool
  | none => false
  | some s => s != ""

/-- The two vendor credentials read from the process environment in
src/chatbase_bridge.py `chatbase_bridge` (CHATBASE_AGENT_ID, CHATBASE_API_KEY). -/
structure BridgeEnv where
  agent_id : Option String
  api_key : Option String
deriving DecidableEq, Repr

/-- The fields of the Chatbase vendor JSON reply that the bridge reads
(`response.get("text")`, `response.get("output_text")`). -/
structure VendorResponse where
  text : Option String
  output_text : Option String
deriving DecidableEq, Repr

/-- Observable outcome of one call to the `/chatbase_bridge` route:
the HTTP error raised (if any), the reply returned, the memory file contents
afterwards, and whether the vendor was called / the memory file written. -/
structure BridgeResult where
  httpError : Option Nat
  reply : Option String
  memoryAfter : List Msg
  vendorCalled : Bool
  memoryWritten : Bool
deriving DecidableEq, Repr

/-- src/chatbase_bridge.py `chatbase_bridge`: checks the credentials first
(raising HTTP 500 when either is absent/empty, before any vendor call or memory
write), otherwise calls the vendor, picks the reply with Python `or` fallbacks,
appends the user/assistant turns and saves memory. The vendor reply is an input
since it comes from an external service. -/
def chatbase_bridge (env : BridgeEnv) (mem : List Msg) (message : String)
    (vendor : VendorResponse) : BridgeResult :=
  if envTruthy env.agent_id && envTruthy env.api_key then
    let reply := pyOr vendor.text (pyOr vendor.output_text "I'm not sure, could you clarify?")
    let mem2 := mem ++ [⟨"user", message⟩, ⟨"assistant", reply⟩]
    ⟨none, some reply, save_memory mem2, true, true⟩
  else
    ⟨some 500, none, mem, false, false⟩

/-- A row of the Supabase `reservations` table as written by src/main.py. -/
structure SupaRow where
  reservation_id : Nat
  customer_name : String
  customer_email : String
  contact_phone : String
  datetime : String
  party_size : Int
  table_number : String
  notes : String
  status : String
deriving DecidableEq, Repr

/-- The Supabase `reservations` table: its rows plus the database's
auto-increment counter that generates the next `reservation_id`. -/
structure SupaTable where
  rows : List SupaRow
  nextId : Nat
deriving DecidableEq, Repr

/-- Well-formedness of the table: every stored identifier is below the
auto-increment counter (what the database's id generation maintains). -/
def SupaTable.wf (t : SupaTable) : Prop :=
  ∀ r ∈ t.rows, r.reservation_id < t.nextId

/-- The JSON object extracted by the AI in src/main.py `whatsapp_webhook`:
either an `ask` follow-up question, or the reservation fields. Optional fields
model JSON values that may be null/missing; `party_size` is after the `int(...)`
conversion the handler applies. -/
structure AiJson where
  ask : Option String
  customer_name : String
  customer_email : Option String
  contact_phone : Option String
  party_size : Int
  datetime : String
  table_number : Option String
  notes : Option String
deriving DecidableEq, Repr

/-- The insert of src/main.py lines 176-185: builds the row from the AI data
(empty-string fallback via Python `or ""` for the optional fields), sets
`status` to `"confirmed"`, and lets the database assign the identifier. -/
def insertReservation (t : SupaTable) (d : AiJson) : SupaTable :=
  { rows := t.rows ++ [{
      reservation_id := t.nextId
      customer_name := d.customer_name
      customer_email := pyOr d.customer_email ""
      contact_phone := pyOr d.contact_phone ""
      datetime := d.datetime
      party_size := d.party_size
      table_number := pyOr d.table_number ""
      notes := pyOr d.notes ""
      status := "confirmed" }]
    nextId := t.nextId + 1 }

/-- src/main.py lines 154-157: strip the AI reply and remove markdown code
fences before JSON parsing. -/
def cleanAiMsg (msg : String) : String :=
  let m := msg.trim
  if m.startsWith "```" then ((m.replace "```json" "").replace "```" "").trim else m

/-- The Twilio-style XML reply body built by src/main.py. -/
def xmlMessage (s : String) : String :=
  "<Response><Message>" ++ s ++ "</Message></Response>"

/-- Outcome of the `/whatsapp` webhook: the XML response content and the
resulting reservations table. -/
structure WhatsOutcome where
  response : String
  table : SupaTable
deriving DecidableEq, Repr

/-- src/main.py `whatsapp_webhook` after the vendor call: cleans the AI reply,
parses it as JSON (`parse` stands for `json.loads`, returning `none` when it
raises); on failure returns the fixed apology; on an `ask` object returns the
question; otherwise inserts the reservation with status `"confirmed"` and
returns the confirmation message. -/
def whatsapp_webhook (parse : String → Option AiJson) (aiReply : String)
    (t : SupaTable) : WhatsOutcome :=
  match parse (cleanAiMsg aiReply) with
  | none => ⟨xmlMessage "Sorry, can you repeat that?", t⟩
  | some d =>
    match d.ask with
    | some q => ⟨xmlMessage q, t⟩
    | none =>
      ⟨xmlMessage ("✅ Reservation created for " ++ d.customer_name ++ " on " ++ d.datetime ++ "."),
       insertReservation t d⟩

/-- The optional fields of the `UpdateReservation` request model
(src/main.py lines 39-45), besides the required `reservation_id`. -/
structure UpdateFields where
  datetime : Option String
  party_size : Option Int
  table_number : Option String
  notes : Option String
  status : Option String
deriving DecidableEq, Repr

/-- src/main.py line 198 applied to one row: the dict comprehension keeps only
the keys whose value is not None and drops `reservation_id`, and the table
update overwrites exactly those columns. -/
def applyUpdate (u : UpdateFields) (r : SupaRow) : SupaRow :=
  { r with
    datetime := u.datetime.getD r.datetime
    party_size := u.party_size.getD r.party_size
    table_number := u.table_number.getD r.table_number
    notes := u.notes.getD r.notes
    status := u.status.getD r.status }

/-- Response bodies the update/cancel routes can produce. `messageBody m` is a
200 response whose JSON body carries a `message` field equal to `m`;
`successFlag ok` is the soft success/failure body shape the specification
describes (the handlers never construct it); `validationError` is the
structured 422 error the web framework returns when a required request field
is missing. -/
inductive Resp where
  | messageBody (msg : String)
  | successFlag (ok : Bool)
  | validationError
deriving DecidableEq, Repr

/-- src/main.py `update_reservation`: overwrites the non-None fields of every
row whose `reservation_id` matches, and returns the fixed `updated` message. -/
def update_reservation (rid : Nat) (u : UpdateFields) (t : SupaTable) :
    SupaTable × Resp :=
  ({ t with rows := t.rows.map fun r =>
      if r.reservation_id = rid then applyUpdate u r else r },
   Resp.messageBody "updated")

/-- src/main.py `cancel_reservation`: sets `status` to `"cancelled"` on every
row whose `reservation_id` matches, and returns the fixed `cancelled` message. -/
def cancel_reservation (rid : Nat) (t : SupaTable) : SupaTable × Resp :=
  ({ t with rows := t.rows.map fun r =>
      if r.reservation_id = rid then { r with status := "cancelled" } else r },
   Resp.messageBody "cancelled")

/-- The `/updateReservation` route including request validation: the
`UpdateReservation` pydantic model declares `reservation_id : int` with no
default (src/main.py lines 39-45), so a request missing it is rejected by the
framework with a structured 422 validation error before the handler runs. -/
def updateEndpoint (orid : Option Nat) (u : UpdateFields) (t : SupaTable) :
    SupaTable × Resp :=
  match orid with
  | none => (t, Resp.validationError)
  | some rid => update_reservation rid u t

/-- The `/cancelReservation` route including request validation: the
`CancelReservation` model declares `reservation_id : int` with no default
(src/main.py lines 48-49), so a request missing it is rejected with a
structured 422 validation error before the handler runs. -/
def cancelEndpoint (orid : Option Nat) (t : SupaTable) : SupaTable × Resp :=
  match orid with
  | none => (t, Resp.validationError)
  | some rid => cancel_reservation rid t

/-- A reservation dict in the flat JSON file of src/data_store.py: the
`reservation_id` and `status` keys the code touches, plus the remaining
key/value pairs carried through unchanged. -/
structure FileRec where
  reservation_id : String
  status : String
  rest : List (String × String)
deriving DecidableEq, Repr

/-- The loop of src/data_store.py `update_reservation_status`: walk the list,
set the status of the first record whose `reservation_id` matches, and record
whether a match was found (the loop breaks at the first match). -/
def update_status_go (rid s : String) : List FileRec → List FileRec × Bool
  | [] => ([], false)
  | r :: rs =>
    if r.reservation_id = rid then ({ r with status := s } :: rs, true)
    else
      let p := update_status_go rid s rs
      (r :: p.1, p.2)

/-- src/data_store.py `update_reservation_status`: returns the file contents
after the call and the `updated` flag. When no record matches, the file is not
rewritten, so the contents are returned unchanged with flag `false`. -/
def update_reservation_status (data : List FileRec) (rid s : String) :
    List FileRec × Bool :=
  update_status_go rid s data

/-- A row of the sqlite `reservations` table of src/database.py. -/
structure DbRow where
  reservation_id : String
  business : String
  datetime : String
  party_size : Int
  customer_name : String
  customer_email : String
  status : String
  created_at : String
deriving DecidableEq, Repr

/-- src/database.py `update_status`: the SQL UPDATE sets `status` on every row
whose `reservation_id` matches, and the function returns `cur.rowcount > 0`,
i.e. whether any row matched. -/
def update_status (rows : List DbRow) (rid s : String) : List DbRow × Bool :=
  (rows.map fun r => if r.reservation_id = rid then { r with status := s } else r,
   rows.any fun r => r.reservation_id == rid)

/-- The reservation argument of src/database.py `add_reservation` (the keys it
reads from `res`). -/
structure ResInput where
  reservation_id : String
  business : String
  datetime : String
  party_size : Int
  customer_name : String
  customer_email : String
  status : String
deriving DecidableEq, Repr

/-- src/database.py `add_reservation`: inserts one row with exactly the given
fields plus the `created_at` timestamp (`now`, from `datetime.now()`). -/
def add_reservation (rows : List DbRow) (res : ResInput) (now : String) :
    List DbRow :=
  rows ++ [⟨res.reservation_id, res.business, res.datetime, res.party_size,
            res.customer_name, res.customer_email, res.status, now⟩]

/-- The states the reservations file of src/data_store.py can be in: missing,
present but unreadable (open/read raises), or present with contents that
either fail to parse as JSON (`none`) or parse to a stored list (`some l`). -/
inductive FileState where
  | missing
  | unreadable
  | content (parsed : Option (List FileRec))
deriving DecidableEq, Repr

/-- src/data_store.py `load_reservations`: `[]` when the file does not exist;
otherwise the parsed contents, with every exception (unreadable file, invalid
JSON) caught and turned into `[]`. Totality of this Lean function is the
never-raises property. -/
def load_reservations : FileState → List FileRec
  | .missing => []
  | .unreadable => []
  | .content none => []
  | .content (some l) => l

/-! ## Helper lemmas -/

theorem lastN_length_le (n : Nat) (l : List α) : (lastN n l).length ≤ n := by
  simp only [lastN, List.length_drop]
  omega

theorem lastN_lastN (n : Nat) (l : List α) : lastN n (lastN n l) = lastN n l := by
  have h := lastN_length_le n l
  have h0 : (lastN n l).length - n = 0 := by omega
  rw [lastN, h0, List.drop_zero]

theorem lastN_ne_nil {l : List α} (h : l ≠ []) {n : Nat} (hn : 0 < n) :
    lastN n l ≠ [] := by
  have hl : 0 < l.length := List.length_pos.mpr h
  have hpos : 0 < (lastN n l).length := by
    simp only [lastN, List.length_drop]
    omega
  exact List.length_pos.mp hpos

theorem pyOr_some_empty (s : String) : pyOr (some s) "" = s := by
  by_cases h : s = "" <;> simp [pyOr, h]

/-! ## Claims -/

/-- C9: Loading reservations from the file store is total and never raises:
it returns the stored list when the file exists and parses as JSON, and the
empty list when the file is missing, unreadable, or unparseable. Totality is
witnessed by `load_reservations` being a total Lean function over all file
states. -/
theorem C9_load_reservations_total (l : List FileRec) :
    load_reservations (FileState.content (some l)) = l ∧
    load_reservations FileState.missing = [] ∧
    load_reservations FileState.unreadable = [] ∧
    load_reservations (FileState.content none) = [] :=
  ⟨rfl, rfl, rfl, rfl⟩

/-- C6: After every save the persisted chat memory holds at most 15 messages,
and the context string serialized into the vendor prompt is built from at most
the last 10 messages of memory (it is unchanged by dropping everything before
the last 10). -/
theorem C6_context_window (ms mem : List Msg) :
    (save_memory ms).length ≤ 15 ∧
    build_context mem = build_context (lastN 10 mem) := by
  constructor
  · exact lastN_length_le 15 ms
  · by_cases h : mem = []
    · subst h
      rfl
    · have h10 : lastN 10 mem ≠ [] := lastN_ne_nil h (by norm_num)
      rw [build_context, build_context, if_neg h, if_neg h10, lastN_lastN]

/-- C8: If a required vendor credential (agent identifier or API key) is
absent from the process environment (or empty), the chat-bridge call fails
with HTTP 500, makes no vendor call, and performs no memory write. -/
theorem C8_missing_credentials_fatal (env : BridgeEnv) (mem : List Msg)
    (message : String) (vendor : VendorResponse)
    (h : envTruthy env.agent_id = false ∨ envTruthy env.api_key = false) :
    chatbase_bridge env mem message vendor = ⟨some 500, none, mem, false, false⟩ := by
  unfold chatbase_bridge
  rcases h with h | h <;> simp [h]

theorem C8_missing_credentials_fatal_witness :
    chatbase_bridge ⟨none, some "key"⟩ [] "hi" ⟨none, none⟩ =
      ⟨some 500, none, [], false, false⟩ :=
  C8_missing_credentials_fatal ⟨none, some "key"⟩ [] "hi" ⟨none, none⟩ (Or.inl rfl)

/-- C10: The update operation overwrites only the fields supplied with a
non-null value; every field supplied as null is left unchanged, and the
reservation identifier is never among the overwritten fields. -/
theorem C10_update_overwrites_only_given_fields (u : UpdateFields) (r : SupaRow) :
    (applyUpdate u r).reservation_id = r.reservation_id ∧
    (u.datetime = none → (applyUpdate u r).datetime = r.datetime) ∧
    (∀ v, u.datetime = some v → (applyUpdate u r).datetime = v) ∧
    (u.party_size = none → (applyUpdate u r).party_size = r.party_size) ∧
    (∀ v, u.party_size = some v → (applyUpdate u r).party_size = v) ∧
    (u.table_number = none → (applyUpdate u r).table_number = r.table_number) ∧
    (∀ v, u.table_number = some v → (applyUpdate u r).table_number = v) ∧
    (u.notes = none → (applyUpdate u r).notes = r.notes) ∧
    (∀ v, u.notes = some v → (applyUpdate u r).notes = v) ∧
    (u.status = none → (applyUpdate u r).status = r.status) ∧
    (∀ v, u.status = some v → (applyUpdate u r).status = v) := by
  refine ⟨rfl, ?_, ?_, ?_, ?_, ?_, ?_, ?_, ?_, ?_, ?_⟩ <;>
    first
      | (intro v h; simp [applyUpdate, h])
      | (intro h; simp [applyUpdate, h])

theorem C10_update_overwrites_only_given_fields_witness :
    (applyUpdate ⟨some "2025-06-02T20:00", none, none, some "birthday", none⟩
        ⟨7, "Ana", "a@x.y", "555", "2025-06-01T19:00", 4, "2", "", "confirmed"⟩).reservation_id = 7 ∧
    (applyUpdate ⟨some "2025-06-02T20:00", none, none, some "birthday", none⟩
        ⟨7, "Ana", "a@x.y", "555", "2025-06-01T19:00", 4, "2", "", "confirmed"⟩).datetime = "2025-06-02T20:00" ∧
    (applyUpdate ⟨some "2025-06-02T20:00", none, none, some "birthday", none⟩
        ⟨7, "Ana", "a@x.y", "555", "2025-06-01T19:00", 4, "2", "", "confirmed"⟩).party_size = 4 ∧
    (applyUpdate ⟨some "2025-06-02T20:00", none, none, some "birthday", none⟩
        ⟨7, "Ana", "a@x.y", "555", "2025-06-01T19:00", 4, "2", "", "confirmed"⟩).status = "confirmed" := by
  obtain ⟨h1, h2, h3, h4, h5, h6, h7, h8, h9, h10, h11⟩ :=
    C10_update_overwrites_only_given_fields
      ⟨some "2025-06-02T20:00", none, none, some "birthday", none⟩
      ⟨7, "Ana", "a@x.y", "555", "2025-06-01T19:00", 4, "2", "", "confirmed"⟩
  exact ⟨h1, h3 _ rfl, h4 rfl, h10 rfl⟩

/-- C4 counterexample: on a vendor reply that is not parseable as JSON
(`parse` returning `none` on the cleaned reply "hello there"), the webhook
responds with the fixed apology message, which is neither the original reply
text nor the original text wrapped in the XML envelope — refuting the claim
that the original reply is surfaced unchanged. -/
theorem C4_counterexample :
    (whatsapp_webhook (fun _ => none) "hello there" ⟨[], 1⟩).response =
      xmlMessage "Sorry, can you repeat that?" ∧
    (whatsapp_webhook (fun _ => none) "hello there" ⟨[], 1⟩).response ≠ "hello there" ∧
    (whatsapp_webhook (fun _ => none) "hello there" ⟨[], 1⟩).response ≠
      xmlMessage "hello there" := by
  refine ⟨rfl, ?_, ?_⟩ <;> decide

/-- C4 (amended): on a vendor reply that is not parseable as JSON, the
webhook returns the fixed apology message ("Sorry, can you repeat that?") and
leaves the reservations table unchanged; the original reply text is not
surfaced. -/
theorem C4_parse_failure_returns_apology (parse : String → Option AiJson)
    (aiReply : String) (t : SupaTable)
    (h : parse (cleanAiMsg aiReply) = none) :
    whatsapp_webhook parse aiReply t =
      ⟨xmlMessage "Sorry, can you repeat that?", t⟩ := by
  unfold whatsapp_webhook
  rw [h]

theorem C4_parse_failure_returns_apology_witness :
    whatsapp_webhook (fun _ => none) "some plain text" ⟨[], 1⟩ =
      ⟨xmlMessage "Sorry, can you repeat that?", ⟨[], 1⟩⟩ :=
  C4_parse_failure_returns_apology (fun _ => none) "some plain text" ⟨[], 1⟩ rfl

/-- C5 counterexample: a cancel request missing the required reservation
identifier is rejected by request validation with a structured HTTP error,
not answered with a soft success-false body — and the same for update —
refuting the claim that such requests return a soft failure flag. -/
theorem C5_counterexample :
    (cancelEndpoint none ⟨[], 1⟩).2 = Resp.validationError ∧
    (updateEndpoint none ⟨none, none, none, none, none⟩ ⟨[], 1⟩).2 =
      Resp.validationError ∧
    Resp.validationError ≠ Resp.successFlag false := by
  refine ⟨rfl, rfl, ?_⟩
  decide

/-- C5 (amended): an update or cancel request missing the required
reservation identifier is rejected by the framework's request-model
validation with a structured HTTP error before the handler runs, leaving the
table unchanged; no request to these routes ever yields a soft
success-false body. -/
theorem C5_missing_id_is_validation_error (t : SupaTable) (u : UpdateFields)
    (orid : Option Nat) :
    cancelEndpoint none t = (t, Resp.validationError) ∧
    updateEndpoint none u t = (t, Resp.validationError) ∧
    (cancelEndpoint orid t).2 ≠ Resp.successFlag false ∧
    (updateEndpoint orid u t).2 ≠ Resp.successFlag false := by
  refine ⟨rfl, rfl, ?_, ?_⟩ <;>
    cases orid <;>
      simp [cancelEndpoint, updateEndpoint, cancel_reservation, update_reservation]

theorem C5_missing_id_is_validation_error_witness :
    cancelEndpoint none ⟨[], 1⟩ = (⟨[], 1⟩, Resp.validationError) ∧
    updateEndpoint none ⟨none, none, none, none, none⟩ ⟨[], 1⟩ =
      (⟨[], 1⟩, Resp.validationError) ∧
    (cancelEndpoint (some 3) ⟨[], 1⟩).2 ≠ Resp.successFlag false ∧
    (updateEndpoint (some 3) ⟨none, none, none, none, none⟩ ⟨[], 1⟩).2 ≠
      Resp.successFlag false :=
  C5_missing_id_is_validation_error ⟨[], 1⟩ ⟨none, none, none, none, none⟩ (some 3)

/-- C7 counterexample: the update operation writes an arbitrary
caller-supplied status string verbatim, so a persisted record can end up with
status "banana", outside the set confirmed/cancelled/updated — refuting the
claim that no operation can set a status outside that set. -/
theorem C7_counterexample :
    (update_reservation 1 ⟨none, none, none, none, some "banana"⟩
        ⟨[⟨1, "Ana", "a@x.y", "555", "2025-06-01T19:00", 2, "", "", "confirmed"⟩], 2⟩).1.rows =
      [⟨1, "Ana", "a@x.y", "555", "2025-06-01T19:00", 2, "", "", "banana"⟩] ∧
    ¬("banana" = "confirmed" ∨ "banana" = "cancelled" ∨ "banana" = "updated") := by
  refine ⟨rfl, ?_⟩
  decide

/-- C7 (amended): reservation creation always sets status "confirmed" and
cancellation always sets status "cancelled" (every row after these operations
is either an untouched pre-existing row or carries the operation's status),
but the update operation writes whatever status string the request supplies,
so statuses are not confined to confirmed/cancelled/updated. -/
theorem C7_status_written_by_each_operation :
    (∀ (t : SupaTable) (d : AiJson), ∀ r ∈ (insertReservation t d).rows,
        r ∈ t.rows ∨ r.status = "confirmed") ∧
    (∀ (rid : Nat) (t : SupaTable), ∀ r ∈ (cancel_reservation rid t).1.rows,
        r ∈ t.rows ∨ r.status = "cancelled") ∧
    (∀ (u : UpdateFields) (r : SupaRow) (s : String),
        u.status = some s → (applyUpdate u r).status = s) := by
  refine ⟨?_, ?_, ?_⟩
  · intro t d r hr
    simp only [insertReservation, List.mem_append, List.mem_singleton] at hr
    rcases hr with h | h
    · exact Or.inl h
    · subst h
      exact Or.inr rfl
  · intro rid t r hr
    simp only [cancel_reservation, List.mem_map] at hr
    obtain ⟨a, ha, rfl⟩ := hr
    by_cases hid : a.reservation_id = rid
    · right
      simp [hid]
    · left
      simpa [hid] using ha
  · intro u r s h
    simp [applyUpdate, h]

theorem C7_status_written_by_each_operation_witness :
    (applyUpdate ⟨none, none, none, none, some "updated"⟩
      ⟨3, "Bo", "b@x.y", "", "2025-06-01T18:00", 2, "", "", "confirmed"⟩).status = "updated" :=
  C7_status_written_by_each_operation.2.2
    ⟨none, none, none, none, some "updated"⟩
    ⟨3, "Bo", "b@x.y", "", "2025-06-01T18:00", 2, "", "", "confirmed"⟩ "updated" rfl

theorem map_id_of_mem {l : List α} {f : α → α} (h : ∀ a ∈ l, f a = a) :
    l.map f = l := by
  rw [show l.map f = l.map id from List.map_congr_left (by simpa using h),
    List.map_id]

theorem update_status_go_found (rid s : String) (l : List FileRec)
    (h : ∃ r ∈ l, r.reservation_id = rid) :
    (update_status_go rid s l).2 = true ∧
    ∃ r ∈ (update_status_go rid s l).1, r.reservation_id = rid ∧ r.status = s := by
  induction l with
  | nil => simp at h
  | cons a as ih =>
    by_cases ha : a.reservation_id = rid
    · refine ⟨by simp [update_status_go, ha], ?_⟩
      refine ⟨{ a with status := s }, ?_, ha, rfl⟩
      simp [update_status_go, ha]
    · obtain ⟨r, hr, hrid⟩ := h
      rcases List.mem_cons.mp hr with rfl | hr2
      · exact absurd hrid ha
      · obtain ⟨hflag, r2, hr2mem, hprops⟩ := ih ⟨r, hr2, hrid⟩
        refine ⟨by simpa [update_status_go, ha] using hflag, ?_⟩
        exact ⟨r2, by simp [update_status_go, ha, hr2mem], hprops⟩

theorem update_status_go_not_found (rid s : String) (l : List FileRec)
    (h : ∀ r ∈ l, r.reservation_id ≠ rid) :
    update_status_go rid s l = (l, false) := by
  induction l with
  | nil => rfl
  | cons a as ih =>
    have ha : a.reservation_id ≠ rid := h a (by simp)
    have has : ∀ r ∈ as, r.reservation_id ≠ rid := fun r hr => h r (by simp [hr])
    simp [update_status_go, ha, ih has]

/-- C2: Cancelling a reservation identifier that is present in storage sets
that reservation's status to "cancelled" and returns a success indicator, in
each of the three cited implementations: the file store returns flag `true`
and holds a cancelled record with the identifier; the sqlite store returns
`rowcount > 0 = true` and every stored row with the identifier is cancelled;
the Supabase route cancels every matching row and answers with the
"cancelled" message body. -/
theorem C2_cancel_known_id_sets_cancelled
    (data : List FileRec) (rows : List DbRow) (t : SupaTable)
    (rid drid : String) (nrid : Nat)
    (hf : ∃ r ∈ data, r.reservation_id = rid)
    (hd : ∃ r ∈ rows, r.reservation_id = drid)
    (hs : ∃ r ∈ t.rows, r.reservation_id = nrid) :
    ((update_reservation_status data rid "cancelled").2 = true ∧
      ∃ r ∈ (update_reservation_status data rid "cancelled").1,
        r.reservation_id = rid ∧ r.status = "cancelled") ∧
    ((update_status rows drid "cancelled").2 = true ∧
      ∀ r ∈ (update_status rows drid "cancelled").1,
        r.reservation_id = drid → r.status = "cancelled") ∧
    ((cancel_reservation nrid t).2 = Resp.messageBody "cancelled" ∧
      ∃ r ∈ (cancel_reservation nrid t).1.rows,
        r.reservation_id = nrid ∧ r.status = "cancelled") := by
  refine ⟨update_status_go_found rid "cancelled" data hf, ⟨?_, ?_⟩, rfl, ?_⟩
  · obtain ⟨r, hr, hrid⟩ := hd
    simp only [update_status, List.any_eq_true]
    exact ⟨r, hr, by simp [hrid]⟩
  · intro r hr hrid
    simp only [update_status, List.mem_map] at hr
    obtain ⟨a, ha, rfl⟩ := hr
    by_cases hid : a.reservation_id = drid
    · simp [hid]
    · simp only [if_neg hid] at hrid
      exact absurd hrid hid
  · obtain ⟨r, hr, hrid⟩ := hs
    refine ⟨{ r with status := "cancelled" }, ?_, hrid, rfl⟩
    simp only [cancel_reservation, List.mem_map]
    exact ⟨r, hr, by simp [hrid]⟩

theorem C2_cancel_known_id_sets_cancelled_witness :
    ((update_reservation_status [⟨"R1", "confirmed", []⟩] "R1" "cancelled").2 = true ∧
      ∃ r ∈ (update_reservation_status [⟨"R1", "confirmed", []⟩] "R1" "cancelled").1,
        r.reservation_id = "R1" ∧ r.status = "cancelled") ∧
    ((update_status [⟨"R2", "cafe", "2025-06-01T19:00", 2, "Ana", "a@x.y", "confirmed", "t0"⟩]
        "R2" "cancelled").2 = true ∧
      ∀ r ∈ (update_status [⟨"R2", "cafe", "2025-06-01T19:00", 2, "Ana", "a@x.y", "confirmed", "t0"⟩]
        "R2" "cancelled").1,
        r.reservation_id = "R2" → r.status = "cancelled") ∧
    ((cancel_reservation 4
        ⟨[⟨4, "Ana", "a@x.y", "555", "2025-06-01T19:00", 2, "", "", "confirmed"⟩], 5⟩).2 =
          Resp.messageBody "cancelled" ∧
      ∃ r ∈ (cancel_reservation 4
        ⟨[⟨4, "Ana", "a@x.y", "555", "2025-06-01T19:00", 2, "", "", "confirmed"⟩], 5⟩).1.rows,
        r.reservation_id = 4 ∧ r.status = "cancelled") :=
  C2_cancel_known_id_sets_cancelled
    [⟨"R1", "confirmed", []⟩]
    [⟨"R2", "cafe", "2025-06-01T19:00", 2, "Ana", "a@x.y", "confirmed", "t0"⟩]
    ⟨[⟨4, "Ana", "a@x.y", "555", "2025-06-01T19:00", 2, "", "", "confirmed"⟩], 5⟩
    "R1" "R2" 4
    ⟨⟨"R1", "confirmed", []⟩, by simp, rfl⟩
    ⟨⟨"R2", "cafe", "2025-06-01T19:00", 2, "Ana", "a@x.y", "confirmed", "t0"⟩, by simp, rfl⟩
    ⟨⟨4, "Ana", "a@x.y", "555", "2025-06-01T19:00", 2, "", "", "confirmed"⟩, by simp, rfl⟩

/-- C3 counterexample: on a table holding only reservation 4, cancelling the
unknown identifier 9 through the `/cancelReservation` route leaves storage
unchanged but answers the same fixed "cancelled" message body (HTTP 200) that
a known identifier gets — not a failure indicator — refuting the claim that
cancelling an unknown identifier returns a failure indicator. -/
theorem C3_counterexample :
    (cancel_reservation 9
      ⟨[⟨4, "Ana", "a@x.y", "555", "2025-06-01T19:00", 2, "", "", "confirmed"⟩], 5⟩).1 =
      ⟨[⟨4, "Ana", "a@x.y", "555", "2025-06-01T19:00", 2, "", "", "confirmed"⟩], 5⟩ ∧
    (cancel_reservation 9
      ⟨[⟨4, "Ana", "a@x.y", "555", "2025-06-01T19:00", 2, "", "", "confirmed"⟩], 5⟩).2 =
      Resp.messageBody "cancelled" ∧
    (cancel_reservation 9
      ⟨[⟨4, "Ana", "a@x.y", "555", "2025-06-01T19:00", 2, "", "", "confirmed"⟩], 5⟩).2 =
      (cancel_reservation 4
        ⟨[⟨4, "Ana", "a@x.y", "555", "2025-06-01T19:00", 2, "", "", "confirmed"⟩], 5⟩).2 ∧
    (cancel_reservation 9
      ⟨[⟨4, "Ana", "a@x.y", "555", "2025-06-01T19:00", 2, "", "", "confirmed"⟩], 5⟩).2 ≠
      Resp.successFlag false := by
  refine ⟨?_, rfl, rfl, ?_⟩
  · refine congrArg (fun rs => SupaTable.mk rs 5) ?_
    decide
  · decide

/-- C3 (amended): Cancelling a reservation identifier that is not present in
storage leaves the stored reservations entirely unchanged in all three
implementations, and the storage-layer cancel operations (file store and
sqlite store) return the failure flag `false`; the Supabase cancel route,
however, still answers its fixed "cancelled" message body, with no failure
indicator. -/
theorem C3_cancel_unknown_id_no_mutation
    (data : List FileRec) (rows : List DbRow) (t : SupaTable)
    (rid drid : String) (nrid : Nat)
    (hf : ∀ r ∈ data, r.reservation_id ≠ rid)
    (hd : ∀ r ∈ rows, r.reservation_id ≠ drid)
    (hs : ∀ r ∈ t.rows, r.reservation_id ≠ nrid) :
    update_reservation_status data rid "cancelled" = (data, false) ∧
    update_status rows drid "cancelled" = (rows, false) ∧
    (cancel_reservation nrid t).1 = t ∧
    (cancel_reservation nrid t).2 = Resp.messageBody "cancelled" := by
  refine ⟨update_status_go_not_found rid "cancelled" data hf, ?_, ?_, rfl⟩
  · simp only [update_status, Prod.mk.injEq]
    constructor
    · refine map_id_of_mem fun r hr => ?_
      simp [hd r hr]
    · simp only [List.any_eq_false]
      intro r hr
      simpa using hd r hr
  · have hm : t.rows.map (fun r =>
        if r.reservation_id = nrid then { r with status := "cancelled" } else r) = t.rows := by
      refine map_id_of_mem fun r hr => ?_
      simp [hs r hr]
    simp only [cancel_reservation, hm]

theorem C3_cancel_unknown_id_no_mutation_witness :
    update_reservation_status [⟨"R1", "confirmed", []⟩] "R9" "cancelled" =
      ([⟨"R1", "confirmed", []⟩], false) ∧
    update_status [⟨"R2", "cafe", "2025-06-01T19:00", 2, "Ana", "a@x.y", "confirmed", "t0"⟩]
      "R9" "cancelled" =
      ([⟨"R2", "cafe", "2025-06-01T19:00", 2, "Ana", "a@x.y", "confirmed", "t0"⟩], false) ∧
    (cancel_reservation 9
      ⟨[⟨4, "Ana", "a@x.y", "555", "2025-06-01T19:00", 2, "", "", "confirmed"⟩], 5⟩).1 =
      ⟨[⟨4, "Ana", "a@x.y", "555", "2025-06-01T19:00", 2, "", "", "confirmed"⟩], 5⟩ ∧
    (cancel_reservation 9
      ⟨[⟨4, "Ana", "a@x.y", "555", "2025-06-01T19:00", 2, "", "", "confirmed"⟩], 5⟩).2 =
      Resp.messageBody "cancelled" :=
  C3_cancel_unknown_id_no_mutation
    [⟨"R1", "confirmed", []⟩]
    [⟨"R2", "cafe", "2025-06-01T19:00", 2, "Ana", "a@x.y", "confirmed", "t0"⟩]
    ⟨[⟨4, "Ana", "a@x.y", "555", "2025-06-01T19:00", 2, "", "", "confirmed"⟩], 5⟩
    "R9" "R9" 9
    (by decide) (by decide) (by decide)

/-- C1: A booking request whose extracted data carries all reservation fields
persists exactly one new record holding exactly those fields plus a
database-generated identifier fresh for the table, and the persisted record's
status is "confirmed". -/
theorem C1_booking_persists_exact_fields
    (parse : String → Option AiJson) (aiReply : String) (t : SupaTable)
    (d : AiJson) (ce cp tn no : String)
    (hp : parse (cleanAiMsg aiReply) = some d) (hask : d.ask = none)
    (hce : d.customer_email = some ce) (hcp : d.contact_phone = some cp)
    (htn : d.table_number = some tn) (hno : d.notes = some no)
    (hwf : SupaTable.wf t) :
    ∃ rid,
      (whatsapp_webhook parse aiReply t).table.rows =
        t.rows ++ [⟨rid, d.customer_name, ce, cp, d.datetime, d.party_size,
                    tn, no, "confirmed"⟩] ∧
      ∀ r ∈ t.rows, r.reservation_id ≠ rid := by
  refine ⟨t.nextId, ?_, fun r hr => Nat.ne_of_lt (hwf r hr)⟩
  simp only [whatsapp_webhook, hp, hask, insertReservation, hce, hcp, htn, hno,
    pyOr_some_empty]

theorem C1_booking_persists_exact_fields_witness :
    ∃ rid,
      (whatsapp_webhook
        (fun _ => some ⟨none, "Alice", some "al@x.y", some "555", 2,
          "2025-06-01T19:00", some "5", some "window"⟩)
        "vendor reply" ⟨[], 5⟩).table.rows =
        [] ++ [⟨rid, "Alice", "al@x.y", "555", "2025-06-01T19:00", 2, "5",
                "window", "confirmed"⟩] ∧
      ∀ r ∈ ([] : List SupaRow), r.reservation_id ≠ rid :=
  C1_booking_persists_exact_fields
    (fun _ => some ⟨none, "Alice", some "al@x.y", some "555", 2,
      "2025-06-01T19:00", some "5", some "window"⟩)
    "vendor reply" ⟨[], 5⟩
    ⟨none, "Alice", some "al@x.y", some "555", 2, "2025-06-01T19:00",
      some "5", some "window"⟩
    "al@x.y" "555" "5" "window"
    rfl rfl rfl rfl rfl rfl
    (by intro r hr; simp at hr)

end ResBackend
